import Mathlib

/-!
Shallow embedding of the weather-mcp repository (src/app.py and src/mcp_client.py).

Conventions of the embedding:
* Python strings are Lean `String`s; byte sequences are `List Nat` with every
  element below 256.
* `datetime.now()` is modelled by an explicit `DateTime6` argument; the
  `strftime` format `%Y%m%d_%H%M%S` is `strftimeCompact`, which zero-pads each
  field to its fixed width (faithful for the values `datetime` can produce,
  i.e. four-digit years and in-range fields).
* Effectful operations (HTTP calls, raised `ToolError`s) are modelled by
  explicit state: each weather operation returns the list of HTTP requests it
  issued together with an `Except ToolErr` result, with the upstream server
  passed in as a function from requests to responses.
-/

namespace WeatherMcp

/-- ASCII decimal digit character of `n % 10`. -/
def digitChar (n : Nat) : Char := Char.ofNat (48 + n % 10)

/-- Whitespace test matching Python `str.strip()` on ASCII input
(space, tab, newline, carriage return, vertical tab, form feed). -/
def pyIsSpace (c : Char) : Bool :=
  c == ' ' || c == '\t' || c == '\n' || c == '\r' || c == '\x0b' || c == '\x0c'

/-- Python `str.lower()` (ASCII case folding, which covers every string the
claims mention). -/
def pyLower (s : String) : String := ⟨s.data.map Char.toLower⟩

/-- Python `str.endswith(suffix)`. -/
def endswith (s suf : String) : Bool := List.isSuffixOf suf.data s.data

/-- A clock reading with second resolution, standing in for `datetime.now()`. -/
structure DateTime6 where
  year : Nat
  month : Nat
  day : Nat
  hour : Nat
  minute : Nat
  second : Nat

/-- The ranges `datetime` guarantees for its fields (`MINYEAR = 1`, but the
four-digit zero-padding of `%Y` is only platform-uniform from 1000 on, and
`datetime.now()` is far inside this range). -/
def DateTime6.WellFormed (t : DateTime6) : Prop :=
  1000 ≤ t.year ∧ t.year ≤ 9999 ∧ 1 ≤ t.month ∧ t.month ≤ 12 ∧
  1 ≤ t.day ∧ t.day ≤ 31 ∧ t.hour ≤ 23 ∧ t.minute ≤ 59 ∧ t.second ≤ 59

instance (t : DateTime6) : Decidable t.WellFormed := by
  unfold DateTime6.WellFormed
  infer_instance

/-- `datetime.now().strftime("%Y%m%d_%H%M%S")`: the compact timestamp used in
synthesized report filenames. -/
def strftimeCompact (t : DateTime6) : String :=
  ⟨[digitChar (t.year / 1000), digitChar (t.year / 100), digitChar (t.year / 10),
    digitChar t.year,
    digitChar (t.month / 10), digitChar t.month,
    digitChar (t.day / 10), digitChar t.day, '_',
    digitChar (t.hour / 10), digitChar t.hour,
    digitChar (t.minute / 10), digitChar t.minute,
    digitChar (t.second / 10), digitChar t.second]⟩

/-- `get_report_filename` from src/app.py: falls back to
`report_<timestamp>.<extension>` when the filename is absent or whitespace-only
(`file_name is None or file_name.strip() == ""`), appends the extension when
`file_name.lower()` does not already end with `.<extension>`, and otherwise
returns the name unchanged. -/
def get_report_filename (file_name : Option String) (extension : String)
    (now : DateTime6) : String :=
  match file_name with
  | none => "report_" ++ strftimeCompact now ++ "." ++ extension
  | some fn =>
    if fn.data.all pyIsSpace then
      "report_" ++ strftimeCompact now ++ "." ++ extension
    else if endswith (pyLower fn) ("." ++ extension) then fn
    else fn ++ "." ++ extension

/-- Decision procedure for the spec pattern `report_\d\x7b8\x7d_\d\x7b6\x7d\.pdf`. -/
def matchesReportPdf (s : String) : Bool :=
  match s.data with
  | 'r' :: 'e' :: 'p' :: 'o' :: 'r' :: 't' :: '_' ::
    d1 :: d2 :: d3 :: d4 :: d5 :: d6 :: d7 :: d8 :: '_' ::
    e1 :: e2 :: e3 :: e4 :: e5 :: e6 :: '.' :: 'p' :: 'd' :: 'f' :: [] =>
      [d1, d2, d3, d4, d5, d6, d7, d8, e1, e2, e3, e4, e5, e6].all Char.isDigit
  | _ => false

/-- Character `n` (for `n < 64`) of the standard base64 alphabet
`A-Z a-z 0-9 + /` used by `base64.b64encode`. -/
def b64char (n : Nat) : Char :=
  if n < 26 then Char.ofNat (65 + n)
  else if n < 52 then Char.ofNat (97 + (n - 26))
  else if n < 62 then Char.ofNat (48 + (n - 52))
  else if n = 62 then Char.ofNat 43
  else Char.ofNat 47

/-- Index of a character in the standard base64 alphabet. -/
def b64charVal (c : Char) : Nat :=
  if 65 ≤ c.toNat && c.toNat ≤ 90 then c.toNat - 65
  else if 97 ≤ c.toNat && c.toNat ≤ 122 then c.toNat - 97 + 26
  else if 48 ≤ c.toNat && c.toNat ≤ 57 then c.toNat - 48 + 52
  else if c.toNat = 43 then 62
  else 63

/-- RFC 4648 base64 encoding of a byte sequence, as performed by
`base64.b64encode`: three bytes become four alphabet characters, a final
one- or two-byte group is padded with `=`. -/
def b64encode : List Nat → List Char
  | [] => []
  | [b1] => [b64char (b1 / 4), b64char (b1 % 4 * 16), '=', '=']
  | [b1, b2] =>
      [b64char (b1 / 4), b64char (b1 % 4 * 16 + b2 / 16), b64char (b2 % 16 * 4), '=']
  | b1 :: b2 :: b3 :: rest =>
      b64char (b1 / 4) :: b64char (b1 % 4 * 16 + b2 / 16) ::
      b64char (b2 % 16 * 4 + b3 / 64) :: b64char (b3 % 64) :: b64encode rest

/-- Reassemble bytes from the 6-bit values of a base64 string whose padding
has been removed: each full group of four values yields three bytes, a
trailing group of three (resp. two) values yields two bytes (resp. one). -/
def decodeVals : List Nat → List Nat
  | v1 :: v2 :: v3 :: v4 :: rest =>
      (v1 * 4 + v2 / 16) :: (v2 % 16 * 16 + v3 / 4) :: (v3 % 4 * 64 + v4) ::
      decodeVals rest
  | [v1, v2, v3] => [v1 * 4 + v2 / 16, v2 % 16 * 16 + v3 / 4]
  | [v1, v2] => [v1 * 4 + v2 / 16]
  | _ => []

/-- Base64 decoding (`base64.b64decode`): strip the `=` padding, map the
remaining characters to their 6-bit values and reassemble the bytes. -/
def b64decode (cs : List Char) : List Nat :=
  decodeVals ((cs.filter (fun c => c != '=')).map b64charVal)

/-- Base64 decoding applied to a Lean `String`. -/
def b64decodeStr (s : String) : List Nat := b64decode s.data

/-- Base64 encoding producing a Lean `String`, as in
`base64.b64encode(file_data).decode("utf-8")`. -/
def b64encodeStr (bs : List Nat) : String := ⟨b64encode bs⟩

/-- `os.path.basename`: everything after the last `/` of a POSIX path. -/
def basename (p : String) : String :=
  ⟨(p.data.reverse.takeWhile (fun c => c != '/')).reverse⟩

/-- The descriptor dictionary built by `handle_file_result`
(`data` / `mime_type` / `name` keys). -/
structure FileDescriptor where
  data : String
  mime_type : String
  name : String

/-- `handle_file_result` from src/app.py, with the bytes read from
`file_path` supplied explicitly (the `open(file_path, "rb").read()` result):
base64-encode the bytes and wrap the descriptor in a one-element list. -/
def handle_file_result (file_path : String) (mime_type : String)
    (file_data : List Nat) : List FileDescriptor :=
  [{ data := b64encodeStr file_data,
     mime_type := mime_type,
     name := basename file_path }]

/-- A parameter value of the outbound weather request: Python passes strings
for `q`/`dt`/`key` and an integer for `days`. -/
inductive PVal
  | s (v : String)
  | i (v : Int)
deriving DecidableEq

/-- One outbound HTTP GET issued by `make_weather_request`:
`{BASE_URL}/{endpoint}.json` with its query parameters in order. -/
structure WeatherRequest where
  endpoint : String
  params : List (String × PVal)
deriving DecidableEq

/-- Minimal JSON value model for parsed response bodies. -/
inductive Json
  | null
  | bool (b : Bool)
  | num (n : Int)
  | str (s : String)
  | arr (elems : List Json)
  | obj (fields : List (String × Json))

/-- A parsed top-level JSON object (`response.json()` of the weather API is a
dict). -/
abbrev JsonObj := List (String × Json)

/-- The upstream server behaviour at one request: an HTTP error status
(`raise_for_status` raises `httpx.HTTPStatusError`), a connection/timeout
failure (`httpx.RequestError`), or a 200 response with a parsed JSON body. -/
inductive Upstream
  | ok (body : JsonObj)
  | httpError (status : Nat)
  | netError (msg : String)

/-- The `ToolError` raise sites of src/app.py, one constructor per site
(the Python code distinguishes them only by message text). -/
inductive ToolErr
  | configError
  | invalidDate (dt : String)
  | schemaViolation (param : String)
  | httpError (status : Nat)
  | networkError (msg : String)
  | apiError (msg : String)
  | unexpected (msg : String)
deriving DecidableEq

/-- The hardcoded credential at the top of src/app.py. -/
def API_KEY : String := "b27fe189341c46fe8ad63338251509"

/-- Python `data[k]` on a dict, as an `Option` (first binding wins). -/
def lookupKey (data : JsonObj) (k : String) : Option Json :=
  (data.find? (fun kv => kv.1 == k)).map (fun kv => kv.2)

/-- Python `k in data` on a dict. -/
def hasKey (data : JsonObj) (k : String) : Bool :=
  data.any (fun kv => kv.1 == k)

/-- Python `str()` of a JSON value as interpolated into the error f-string
(exact text of the composite cases is irrelevant to the claims). -/
def jsonToStr : Json → String
  | .null => "None"
  | .bool b => if b then "True" else "False"
  | .num n => toString n
  | .str s => s
  | .arr _ => "[list]"
  | .obj _ => "\x7bdict\x7d"

/-- The `data["error"]["message"]` lookup chain: it succeeds only when
`data["error"]` is an object carrying a `message` key; any other shape raises
in Python and falls into the catch-all `except Exception` branch. -/
def errMessage (data : JsonObj) : Option Json :=
  match lookupKey data "error" with
  | some (.obj fs) => lookupKey fs "message"
  | _ => none

/-- `make_weather_request` from src/app.py, with the credential and the
upstream behaviour passed explicitly. Returns the list of HTTP requests
actually issued together with the result: the placeholder-credential check
fires before any request; otherwise exactly one GET is issued and the
response is mapped through the error taxonomy, an embedded `error` object in
a 200 body becoming `apiError` (or `unexpected` when the message lookup chain
raises), and an error-free body being returned unchanged. -/
def make_weather_request (api_key : String)
    (upstream : WeatherRequest → Upstream)
    (endpoint : String) (params : List (String × PVal)) :
    List WeatherRequest × Except ToolErr JsonObj :=
  if api_key == "YOUR_API_TOKEN" then
    ([], .error .configError)
  else
    let req : WeatherRequest := ⟨endpoint, ("key", .s api_key) :: params⟩
    let result : Except ToolErr JsonObj :=
      match upstream req with
      | .httpError status => .error (.httpError status)
      | .netError m => .error (.networkError m)
      | .ok data =>
        if hasKey data "error" then
          match errMessage data with
          | some j => .error (.apiError (jsonToStr j))
          | none => .error (.unexpected "error message lookup raised")
        else .ok data
    ([req], result)

/-- `get_current_weather` from src/app.py. -/
def get_current_weather (api_key : String) (upstream : WeatherRequest → Upstream)
    (q : String) : List WeatherRequest × Except ToolErr JsonObj :=
  make_weather_request api_key upstream "current" [("q", .s q)]

/-- The body of `get_forecast_weather` from src/app.py: no range check of its
own, it forwards `int(days)` verbatim. -/
def get_forecast_weather (api_key : String) (upstream : WeatherRequest → Upstream)
    (q : String) (days : Int) : List WeatherRequest × Except ToolErr JsonObj :=
  make_weather_request api_key upstream "forecast" [("q", .s q), ("days", .i days)]

/-- Modelled from the spec: the range enforcement for the forecast `days`
parameter is not in src/app.py's function body; it comes from the declared
`Literal[1, ..., 14]` schema, which the FastMCP/pydantic invocation layer
checks before the tool body runs, rejecting out-of-range values with a
validation error and no tool execution. This wrapper models that invocation
layer around `get_forecast_weather`. -/
def invoke_forecast_tool (api_key : String) (upstream : WeatherRequest → Upstream)
    (q : String) (days : Int) : List WeatherRequest × Except ToolErr JsonObj :=
  if 1 ≤ days ∧ days ≤ 14 then get_forecast_weather api_key upstream q days
  else ([], .error (.schemaViolation "days"))

/-- Numeric value of an ASCII digit character. -/
def digitVal (c : Char) : Nat := c.toNat - 48

/-- Leap year rule used by `datetime`. -/
def isLeapYear (y : Nat) : Bool :=
  y % 4 == 0 && (y % 100 != 0 || y % 400 == 0)

/-- Days in a month, as validated by the `datetime` constructor. -/
def daysInMonth (y m : Nat) : Nat :=
  if m == 2 then (if isLeapYear y then 29 else 28)
  else if m == 4 || m == 6 || m == 9 || m == 11 then 30
  else 31

/-- The month field of `strptime`'s `%m` directive followed by the literal
dash of the format `%Y-%m-%d`: one or two digits forming a value in 1..12
(the CPython directive regex is `1[0-2]|0[1-9]|[1-9]`), then `-`. Returns the
value and the remaining characters. -/
def parseMonth : List Char → Option (Nat × List Char)
  | c1 :: c2 :: rest =>
    if c1.isDigit && c2.isDigit then
      match rest with
      | '-' :: rest2 =>
        let v := digitVal c1 * 10 + digitVal c2
        if 1 ≤ v && v ≤ 12 then some (v, rest2) else none
      | _ => none
    else if c1.isDigit && c2 == '-' then
      if 1 ≤ digitVal c1 then some (digitVal c1, rest) else none
    else none
  | _ => none

/-- The day field of `strptime`'s `%d` directive at the end of the string:
one or two digits forming a value in 1..31 (the CPython directive regex is
`3[01]|[12]\d|0[1-9]|[1-9]`), with nothing left over (unconverted trailing
data makes `strptime` raise). -/
def parseDay : List Char → Option Nat
  | [c1, c2] =>
    if c1.isDigit && c2.isDigit then
      let v := digitVal c1 * 10 + digitVal c2
      if 1 ≤ v && v ≤ 31 then some v else none
    else none
  | [c1] =>
    if c1.isDigit && 1 ≤ digitVal c1 then some (digitVal c1) else none
  | _ => none

/-- Full parse of `datetime.strptime(s, "%Y-%m-%d")`: exactly four digits of
year (`%Y` compiles to `\d\d\d\d`), a dash, then month and day as above. -/
def parseYMD : List Char → Option (Nat × Nat × Nat)
  | y1 :: y2 :: y3 :: y4 :: '-' :: rest =>
    if y1.isDigit && y2.isDigit && y3.isDigit && y4.isDigit then
      let y := ((digitVal y1 * 10 + digitVal y2) * 10 + digitVal y3) * 10 + digitVal y4
      match parseMonth rest with
      | some (m, rest2) =>
        match parseDay rest2 with
        | some d => some (y, m, d)
        | none => none
      | none => none
    else none
  | _ => none

/-- Success of `datetime.strptime(dt, "%Y-%m-%d")`: the parse succeeds and
the `datetime` constructor accepts the fields (`MINYEAR = 1`, day within the
month; the parse already bounds the month by 12 and the year by 9999). -/
def isValidDateYMD (s : String) : Bool :=
  match parseYMD s.data with
  | some (y, m, d) => 1 ≤ y && d ≤ daysInMonth y m
  | none => false

/-- The strict digit pattern `\d\x7b4\x7d-\d\x7b2\x7d-\d\x7b2\x7d` named
`YYYY-MM-DD` by the spec, for comparison with what the code accepts. -/
def matchesYYYYMMDD (s : String) : Bool :=
  match s.data with
  | [a1, a2, a3, a4, '-', m1, m2, '-', d1, d2] =>
      [a1, a2, a3, a4, m1, m2, d1, d2].all Char.isDigit
  | _ => false

/-- `get_history_weather` from src/app.py: validate the date with
`strptime` before any network activity, then dispatch. -/
def get_history_weather (api_key : String) (upstream : WeatherRequest → Upstream)
    (q dt : String) : List WeatherRequest × Except ToolErr JsonObj :=
  if isValidDateYMD dt then
    make_weather_request api_key upstream "history" [("q", .s q), ("dt", .s dt)]
  else ([], .error (.invalidDate dt))

/-- The `{"tools": [...]}` dictionary returned by `list_tools`. -/
structure ListToolsResult where
  tools : List String
deriving DecidableEq

/-- `list_tools` from src/app.py: the static operation catalog. -/
def list_tools : ListToolsResult :=
  ⟨["get_current_weather", "get_forecast_weather", "get_history_weather",
    "generate_pdf_report", "generate_docx_report", "generate_png_image",
    "generate_md_report"]⟩

/-- The quit test of the conversation loop in src/mcp_client.py:
`user_input.lower() in ["quit", "exit"]`. -/
def isQuitInput (s : String) : Bool :=
  pyLower s == "quit" || pyLower s == "exit"

/-- The `while True` conversation loop of `run_mcp_agent` in
src/mcp_client.py, over a finite stream of user inputs, with the agent
reasoning step abstracted as a function from the input to the list of tool
invocations it performs. Returns every tool invocation of the session, in
order; a quit/exit input breaks out of the loop, any other input runs one
agent turn and continues (a failing turn is caught and also continues). -/
def run_agent_loop (agent : String → List String) : List String → List String
  | [] => []
  | inp :: rest =>
    if isQuitInput inp then []
    else agent inp ++ run_agent_loop agent rest

/-- Whether a dispatch result is a raised `ToolError`. -/
def isErrResult : Except ToolErr JsonObj → Bool
  | .error _ => true
  | .ok _ => false

theorem digitChar_isDigit (n : Nat) : (digitChar n).isDigit = true := by
  have h : ∀ m, m < 10 → (Char.ofNat (48 + m)).isDigit = true := by decide
  exact h (n % 10) (Nat.mod_lt _ (by omega))

theorem matchesReportPdf_synth (t : DateTime6) (ext : String) (hext : ext = "pdf") :
    matchesReportPdf ("report_" ++ strftimeCompact t ++ "." ++ ext) = true := by
  subst hext
  show [digitChar (t.year / 1000), digitChar (t.year / 100), digitChar (t.year / 10),
    digitChar t.year, digitChar (t.month / 10), digitChar t.month,
    digitChar (t.day / 10), digitChar t.day,
    digitChar (t.hour / 10), digitChar t.hour,
    digitChar (t.minute / 10), digitChar t.minute,
    digitChar (t.second / 10), digitChar t.second].all Char.isDigit = true
  simp [List.all_cons, digitChar_isDigit]

theorem b64charVal_b64char : ∀ n, n < 64 → b64charVal (b64char n) = n := by
  decide

theorem b64char_ne_pad : ∀ n, n < 64 → (b64char n != '=') = true := by
  decide

theorem b64decode_b64encode : ∀ (bs : List Nat), (∀ b ∈ bs, b < 256) →
    b64decode (b64encode bs) = bs
  | [], _ => rfl
  | [b1], h => by
      have hb1 : b1 < 256 := h b1 (by simp)
      have h1 : b1 / 4 < 64 := by omega
      have h2 : b1 % 4 * 16 < 64 := by omega
      simp [b64decode, b64encode, List.filter_cons, b64char_ne_pad _ h1,
        b64char_ne_pad _ h2, b64charVal_b64char _ h1, b64charVal_b64char _ h2,
        decodeVals]
      omega
  | [b1, b2], h => by
      have hb1 : b1 < 256 := h b1 (by simp)
      have hb2 : b2 < 256 := h b2 (by simp)
      have h1 : b1 / 4 < 64 := by omega
      have h2 : b1 % 4 * 16 + b2 / 16 < 64 := by omega
      have h3 : b2 % 16 * 4 < 64 := by omega
      simp [b64decode, b64encode, List.filter_cons, b64char_ne_pad _ h1,
        b64char_ne_pad _ h2, b64char_ne_pad _ h3, b64charVal_b64char _ h1,
        b64charVal_b64char _ h2, b64charVal_b64char _ h3, decodeVals]
      constructor <;> omega
  | b1 :: b2 :: b3 :: rest, h => by
      have hb1 : b1 < 256 := h b1 (by simp)
      have hb2 : b2 < 256 := h b2 (by simp)
      have hb3 : b3 < 256 := h b3 (by simp)
      have hrest : ∀ b ∈ rest, b < 256 := fun b hb => h b (by simp [hb])
      have ih := b64decode_b64encode rest hrest
      have h1 : b1 / 4 < 64 := by omega
      have h2 : b1 % 4 * 16 + b2 / 16 < 64 := by omega
      have h3 : b2 % 16 * 4 + b3 / 64 < 64 := by omega
      have h4 : b3 % 64 < 64 := by omega
      have e1 : b1 / 4 * 4 + (b1 % 4 * 16 + b2 / 16) / 16 = b1 := by omega
      have e2 : (b1 % 4 * 16 + b2 / 16) % 16 * 16 +
          (b2 % 16 * 4 + b3 / 64) / 4 = b2 := by omega
      have e3 : (b2 % 16 * 4 + b3 / 64) % 4 * 64 + b3 % 64 = b3 := by omega
      simp only [b64decode] at ih ⊢
      simp only [b64encode, List.filter_cons, b64char_ne_pad _ h1,
        b64char_ne_pad _ h2, b64char_ne_pad _ h3, b64char_ne_pad _ h4,
        if_true, List.map_cons, b64charVal_b64char _ h1, b64charVal_b64char _ h2,
        b64charVal_b64char _ h3, b64charVal_b64char _ h4, decodeVals,
        e1, e2, e3, ih]

/-- C1: `get_report_filename` returns `foo.pdf` for filename `foo` with
extension `pdf`, leaves `foo.pdf` and `FOO.PDF` unchanged (the extension
match is case-insensitive), and for an absent or empty filename synthesizes a
name matching `report_` + eight digits + `_` + six digits + `.pdf`. -/
theorem get_report_filename_spec :
    (∀ t, get_report_filename (some "foo") "pdf" t = "foo.pdf") ∧
    (∀ t, get_report_filename (some "foo.pdf") "pdf" t = "foo.pdf") ∧
    (∀ t, get_report_filename (some "FOO.PDF") "pdf" t = "FOO.PDF") ∧
    (∀ t, t.WellFormed → matchesReportPdf (get_report_filename none "pdf" t) = true) ∧
    (∀ t, t.WellFormed →
      matchesReportPdf (get_report_filename (some "") "pdf" t) = true) := by
  refine ⟨fun t => rfl, fun t => rfl, fun t => rfl,
    fun t _ => ?_, fun t _ => ?_⟩
  · exact matchesReportPdf_synth t "pdf" rfl
  · exact matchesReportPdf_synth t "pdf" rfl

theorem get_report_filename_spec_witness :
    DateTime6.WellFormed ⟨2025, 10, 12, 6, 30, 0⟩ ∧
    matchesReportPdf (get_report_filename none "pdf" ⟨2025, 10, 12, 6, 30, 0⟩) = true ∧
    get_report_filename (some "foo") "pdf" ⟨2025, 10, 12, 6, 30, 0⟩ = "foo.pdf" :=
  ⟨by decide,
   get_report_filename_spec.2.2.2.1 ⟨2025, 10, 12, 6, 30, 0⟩ (by decide),
   get_report_filename_spec.1 ⟨2025, 10, 12, 6, 30, 0⟩⟩

/-- C2: for every file path, MIME type and byte content, `handle_file_result`
returns a single-element sequence whose element carries the base64-encoded
bytes as `data`, the MIME type unchanged as `mime_type`, and the base
filename of the path as `name`. -/
theorem handle_file_result_spec (fp mt : String) (bs : List Nat) :
    handle_file_result fp mt bs =
      [{ data := b64encodeStr bs, mime_type := mt, name := basename fp }] ∧
    (handle_file_result fp mt bs).length = 1 :=
  ⟨rfl, rfl⟩

/-- C3: the base64 string placed in the descriptor by `handle_file_result`
decodes back to exactly the packaged bytes, so the decoded length equals the
original byte count. -/
theorem packaged_base64_roundtrip (fp mt : String) (bs : List Nat)
    (h : ∀ b ∈ bs, b < 256) :
    (handle_file_result fp mt bs).map (fun d => b64decodeStr d.data) = [bs] ∧
    (handle_file_result fp mt bs).map (fun d => (b64decodeStr d.data).length) =
      [bs.length] := by
  have hround : b64decodeStr (b64encodeStr bs) = bs := b64decode_b64encode bs h
  constructor <;> simp [handle_file_result, hround]

theorem packaged_base64_roundtrip_witness :
    (∀ b ∈ [72, 101, 108, 108, 111], b < 256) ∧
    ((handle_file_result "docs/report.pdf" "application/pdf"
        [72, 101, 108, 108, 111]).map (fun d => b64decodeStr d.data) =
      [[72, 101, 108, 108, 111]] ∧
    (handle_file_result "docs/report.pdf" "application/pdf"
        [72, 101, 108, 108, 111]).map (fun d => (b64decodeStr d.data).length) =
      [[72, 101, 108, 108, 111].length]) :=
  ⟨by decide,
   packaged_base64_roundtrip "docs/report.pdf" "application/pdf"
     [72, 101, 108, 108, 111] (by decide)⟩

/-- C10: a filename consisting only of whitespace is treated exactly like an
absent filename: `get_report_filename` discards it and synthesizes the
timestamped name instead of appending the extension to the whitespace. -/
theorem whitespace_filename_synthesizes (fn ext : String) (t : DateTime6)
    (h : fn.data.all pyIsSpace = true) :
    get_report_filename (some fn) ext t = get_report_filename none ext t := by
  simp [get_report_filename, h]

theorem whitespace_filename_synthesizes_witness :
    ("   ".data.all pyIsSpace = true) ∧
    get_report_filename (some "   ") "pdf" ⟨2025, 10, 12, 6, 30, 0⟩ =
      get_report_filename none "pdf" ⟨2025, 10, 12, 6, 30, 0⟩ :=
  ⟨by decide,
   whitespace_filename_synthesizes "   " "pdf" ⟨2025, 10, 12, 6, 30, 0⟩ (by decide)⟩

theorem hasKey_of_lookupKey (data : JsonObj) (k : String) (j : Json)
    (h : lookupKey data k = some j) : hasKey data k = true := by
  unfold lookupKey at h
  cases hfind : data.find? (fun kv => kv.1 == k) with
  | none => rw [hfind] at h; simp at h
  | some kv =>
    have hp := List.find?_some hfind
    have hm := List.mem_of_find?_eq_some hfind
    unfold hasKey
    exact List.any_eq_true.mpr ⟨kv, hm, hp⟩

theorem hasKey_of_errMessage (data : JsonObj) (j : Json)
    (h : errMessage data = some j) : hasKey data "error" = true := by
  unfold errMessage at h
  cases hfind : lookupKey data "error" with
  | none => rw [hfind] at h; simp at h
  | some v => exact hasKey_of_lookupKey data "error" v hfind

/-- C4 (amended): every historical date string rejected by the
`%Y-%m-%d` parse (four-digit year, one-or-two-digit month and day forming a
valid calendar date) makes the history operation fail with the validation
error and issue no HTTP request; but the parse is laxer than the strict
`YYYY-MM-DD` digit pattern, accepting single-digit months and days. -/
theorem history_invalid_date_fails (k : String) (u : WeatherRequest → Upstream)
    (q dt : String) (h : isValidDateYMD dt = false) :
    get_history_weather k u q dt = ([], .error (.invalidDate dt)) := by
  simp [get_history_weather, h]

theorem history_invalid_date_fails_witness :
    isValidDateYMD "2025-13-01" = false ∧
    get_history_weather API_KEY (fun _ => Upstream.ok []) "London" "2025-13-01" =
      ([], Except.error (ToolErr.invalidDate "2025-13-01")) :=
  ⟨by decide,
   history_invalid_date_fails API_KEY (fun _ => Upstream.ok []) "London"
     "2025-13-01" (by decide)⟩

/-- C4 counterexample: the date `2025-1-2` does not match the strict
`YYYY-MM-DD` digit pattern, yet the history operation accepts it and issues
the HTTP request, contradicting the claim that every non-matching input fails
before any network call. -/
theorem history_nonpattern_date_dispatches :
    matchesYYYYMMDD "2025-1-2" = false ∧
    (get_history_weather API_KEY (fun _ => Upstream.ok []) "London" "2025-1-2").1 =
      [⟨"history", [("key", PVal.s API_KEY), ("q", PVal.s "London"),
        ("dt", PVal.s "2025-1-2")]⟩] :=
  ⟨rfl, rfl⟩

/-- C5: for every day count in [1,14] the forecast invocation issues its one
request carrying exactly that integer (no clamping); every value outside the
range is rejected by the declared-schema validation with no tool execution
and no request. -/
theorem forecast_days_validation (k : String) (u : WeatherRequest → Upstream)
    (q : String) (days : Int) (hk : (k == "YOUR_API_TOKEN") = false) :
    (1 ≤ days ∧ days ≤ 14 →
      (invoke_forecast_tool k u q days).1 =
        [⟨"forecast", [("key", .s k), ("q", .s q), ("days", .i days)]⟩]) ∧
    (days < 1 ∨ 14 < days →
      invoke_forecast_tool k u q days = ([], .error (.schemaViolation "days"))) := by
  constructor
  · intro hd
    unfold invoke_forecast_tool
    rw [if_pos hd]
    simp [get_forecast_weather, make_weather_request, hk]
  · intro hd
    unfold invoke_forecast_tool
    rw [if_neg (by omega)]

theorem forecast_days_validation_witness :
    (invoke_forecast_tool API_KEY (fun _ => Upstream.ok []) "London" 7).1 =
      [⟨"forecast", [("key", PVal.s API_KEY), ("q", PVal.s "London"),
        ("days", PVal.i 7)]⟩] ∧
    invoke_forecast_tool API_KEY (fun _ => Upstream.ok []) "London" 20 =
      ([], Except.error (ToolErr.schemaViolation "days")) :=
  ⟨(forecast_days_validation API_KEY (fun _ => Upstream.ok []) "London" 7
      (by decide)).1 (by decide),
   (forecast_days_validation API_KEY (fun _ => Upstream.ok []) "London" 20
      (by decide)).2 (Or.inr (by decide))⟩

/-- C6 (amended): with the placeholder credential every weather operation
issues zero HTTP requests and fails; current and forecast fail with the
configuration error, and so does history when its date is well-formed, but a
malformed history date fails with the validation error instead (that check
runs before the credential check). -/
theorem placeholder_key_zero_calls (u : WeatherRequest → Upstream)
    (q dt : String) (days : Int) :
    get_current_weather "YOUR_API_TOKEN" u q = ([], .error .configError) ∧
    get_forecast_weather "YOUR_API_TOKEN" u q days = ([], .error .configError) ∧
    (isValidDateYMD dt = true →
      get_history_weather "YOUR_API_TOKEN" u q dt = ([], .error .configError)) ∧
    (isValidDateYMD dt = false →
      get_history_weather "YOUR_API_TOKEN" u q dt =
        ([], .error (.invalidDate dt))) := by
  refine ⟨rfl, rfl, fun h => ?_, fun h => ?_⟩ <;>
    simp [get_history_weather, h, make_weather_request]

theorem placeholder_key_zero_calls_witness :
    get_current_weather "YOUR_API_TOKEN" (fun _ => Upstream.ok []) "London" =
      ([], Except.error ToolErr.configError) ∧
    get_history_weather "YOUR_API_TOKEN" (fun _ => Upstream.ok []) "London"
        "2025-10-12" = ([], Except.error ToolErr.configError) :=
  ⟨(placeholder_key_zero_calls (fun _ => Upstream.ok []) "London" "2025-10-12" 3).1,
   (placeholder_key_zero_calls (fun _ => Upstream.ok []) "London" "2025-10-12" 3).2.2.1
     (by decide)⟩

/-- C6 counterexample: calling the history operation with the placeholder
credential and a malformed date makes zero network calls but fails with the
validation error, not the configuration error, so not every weather operation
fails with a configuration error under an unset/placeholder credential. -/
theorem placeholder_key_history_not_config :
    get_history_weather "YOUR_API_TOKEN" (fun _ => Upstream.ok []) "London"
        "2025-13-01" = ([], Except.error (ToolErr.invalidDate "2025-13-01")) ∧
    ToolErr.invalidDate "2025-13-01" ≠ ToolErr.configError :=
  ⟨rfl, by decide⟩

/-- C7: on an HTTP 200 upstream response, the dispatch raises an error exactly
when the parsed JSON body contains an `error` key; an error-free body is
returned unchanged; and when the embedded error object carries a message, the
raised error carries that upstream message. -/
theorem ok_response_dispatch (k e : String) (p : List (String × PVal))
    (u : WeatherRequest → Upstream) (data : JsonObj)
    (hk : (k == "YOUR_API_TOKEN") = false)
    (hu : u ⟨e, ("key", .s k) :: p⟩ = .ok data) :
    isErrResult (make_weather_request k u e p).2 = hasKey data "error" ∧
    (hasKey data "error" = false → (make_weather_request k u e p).2 = .ok data) ∧
    (∀ j, errMessage data = some j →
      (make_weather_request k u e p).2 = .error (.apiError (jsonToStr j))) := by
  refine ⟨?_, ?_, ?_⟩
  · cases hh : hasKey data "error" with
    | false => simp [make_weather_request, hk, hu, hh, isErrResult]
    | true =>
      cases hm : errMessage data with
      | none => simp [make_weather_request, hk, hu, hh, hm, isErrResult]
      | some j => simp [make_weather_request, hk, hu, hh, hm, isErrResult]
  · intro hh
    simp [make_weather_request, hk, hu, hh]
  · intro j hm
    have hh : hasKey data "error" = true := hasKey_of_errMessage data j hm
    simp [make_weather_request, hk, hu, hh, hm]

theorem ok_response_dispatch_witness :
    isErrResult (make_weather_request API_KEY
      (fun _ => Upstream.ok [("error", Json.obj [("message", Json.str "boom")])])
      "current" [("q", PVal.s "London")]).2 = true ∧
    (make_weather_request API_KEY
      (fun _ => Upstream.ok [("error", Json.obj [("message", Json.str "boom")])])
      "current" [("q", PVal.s "London")]).2 =
      Except.error (ToolErr.apiError "boom") := by
  have h := ok_response_dispatch API_KEY "current" [("q", PVal.s "London")]
    (fun _ => Upstream.ok [("error", Json.obj [("message", Json.str "boom")])])
    [("error", Json.obj [("message", Json.str "boom")])] (by decide) rfl
  exact ⟨h.1.trans (by decide), h.2.2 (Json.str "boom") rfl⟩

/-- C8: the catalog listing takes no arguments and returns exactly the seven
fixed operation names — three weather queries then four document generators —
in their registration order, under the `tools` key. -/
theorem list_tools_spec :
    list_tools = ⟨["get_current_weather", "get_forecast_weather",
      "get_history_weather", "generate_pdf_report", "generate_docx_report",
      "generate_png_image", "generate_md_report"]⟩ ∧
    list_tools.tools.length = 7 :=
  ⟨rfl, rfl⟩

/-- C9: a case-insensitive quit or exit input terminates the conversation
loop, with no tool invocation happening at or after that input; any other
input instead runs one agent reasoning step and the loop continues with the
remaining inputs. -/
theorem agent_loop_quit (agent : String → List String) (inp : String)
    (rest : List String) :
    (pyLower inp = "quit" ∨ pyLower inp = "exit" →
      run_agent_loop agent (inp :: rest) = []) ∧
    (pyLower inp ≠ "quit" → pyLower inp ≠ "exit" →
      run_agent_loop agent (inp :: rest) =
        agent inp ++ run_agent_loop agent rest) := by
  constructor
  · intro h
    have hq : isQuitInput inp = true := by
      unfold isQuitInput
      rcases h with h | h <;> simp [h]
    simp [run_agent_loop, hq]
  · intro h1 h2
    have hq : isQuitInput inp = false := by
      unfold isQuitInput
      simp [h1, h2]
    simp [run_agent_loop, hq]

theorem agent_loop_quit_witness :
    run_agent_loop (fun s => [s]) ["QUIT", "hello"] = [] ∧
    run_agent_loop (fun s => [s]) ["hello", "QUIT"] = ["hello"] := by
  constructor
  · exact (agent_loop_quit (fun s => [s]) "QUIT" ["hello"]).1 (Or.inl (by decide))
  · have h := (agent_loop_quit (fun s => [s]) "hello" ["QUIT"]).2
      (by decide) (by decide)
    rw [h]
    rfl

end WeatherMcp
